import Mathlib

/-!
Shallow embedding of the async job pipeline of the callback-vs-sync-api
repository: the SSRF validator and callback deliverer (src/app/callback.py),
the bounded task queue and worker pool (src/app/task_queue.py), the store
operations they use (src/app/database.py) and the async acceptance handler
(src/app/routes/async_route.py), together with theorems settling the frozen
claims about them.

External effects (DNS resolution, the outbound HTTP POST, store writes,
random jitter draws) are modelled as explicit per-attempt environment data;
the control flow, the recorded rows, the status updates and the sleep
computations are translated from the source.
-/

namespace Consuma

/-! ## IP addresses and the private-range check (callback.py lines 15-37) -/

/-- An IP address as its numeric value: v4 below 2^32, v6 below 2^128. -/
inductive IP where
  | v4 (addr : Nat)
  | v6 (addr : Nat)
deriving Repr, DecidableEq

/-- Numeric value of a dotted-quad IPv4 address. -/
def ipv4Of (a b c d : Nat) : Nat := ((a * 256 + b) * 256 + c) * 256 + d

/-- Membership of a v4 address in a CIDR network: the top `bits` bits agree. -/
def inNet4 (addr net bits : Nat) : Bool :=
  addr / 2 ^ (32 - bits) == net / 2 ^ (32 - bits)

/-- Membership of a v6 address in a CIDR network: the top `bits` bits agree. -/
def inNet6 (addr net bits : Nat) : Bool :=
  addr / 2 ^ (128 - bits) == net / 2 ^ (128 - bits)

/-- One address record returned by `socket.getaddrinfo`: the literal string
`sockaddr[0]` and the result of `ipaddress.ip_address` on it (`none` when that
parse raises `ValueError`). -/
structure ResolvedAddr where
  literal : String
  parsed : Option IP
deriving Repr, DecidableEq

/-- `_is_private_ip` (callback.py lines 32-37): an unparseable literal is
treated as private (safe default); otherwise membership in any of the
`_PRIVATE_NETWORKS` list (127.0.0.0/8, 10.0.0.0/8, 172.16.0.0/12,
192.168.0.0/16, 169.254.0.0/16, 0.0.0.0/8, ::1/128, fc00::/7, fe80::/10);
`in` on a network of the other IP version is False in Python. -/
def is_private_ip (a : ResolvedAddr) : Bool :=
  match a.parsed with
  | none => true
  | some (IP.v4 n) =>
      inNet4 n (ipv4Of 127 0 0 0) 8 || inNet4 n (ipv4Of 10 0 0 0) 8 ||
      inNet4 n (ipv4Of 172 16 0 0) 12 || inNet4 n (ipv4Of 192 168 0 0) 16 ||
      inNet4 n (ipv4Of 169 254 0 0) 16 || inNet4 n (ipv4Of 0 0 0 0) 8
  | some (IP.v6 n) =>
      inNet6 n 1 128 || inNet6 n (0xfc00 * 2 ^ 112) 7 || inNet6 n (0xfe80 * 2 ^ 112) 10

/-! ## URL validation (callback.py lines 40-66) -/

/-- The fields of `urllib.parse.urlparse` that `validate_callback_url` reads. -/
structure UrlParts where
  scheme : String
  hostname : Option String
deriving Repr, DecidableEq

/-- Outcome of the `socket.getaddrinfo` call: either `gaierror` (with its
message) or the list of resolved address records. -/
inductive ResolveResult where
  | failure (errMsg : String)
  | success (addrs : List ResolvedAddr)
deriving Repr, DecidableEq

/-- The resolved address list; empty on resolution failure. -/
def ResolveResult.addrs : ResolveResult → List ResolvedAddr
  | .failure _ => []
  | .success l => l

/-- Python `if not hostname`: true for a missing or empty hostname. -/
def hostnameMissing : Option String → Bool
  | none => true
  | some h => h == ""

/-- `validate_callback_url` (callback.py lines 40-66), with the DNS resolution
outcome passed in as `res` and `settings.allow_private_callbacks` as `ap`.
Returns `Except.error msg` where the source raises `SSRFError(msg)`. -/
def validate_callback_url (ap : Bool) (u : UrlParts) (res : ResolveResult) :
    Except String Unit :=
  if u.scheme = "http" ∨ u.scheme = "https" then
    match u.hostname with
    | none => Except.error "No hostname in callback URL"
    | some h =>
      if h = "" then Except.error "No hostname in callback URL"
      else
        match res with
        | ResolveResult.failure e =>
            Except.error ("DNS resolution failed for " ++ h ++ ": " ++ e)
        | ResolveResult.success addrs =>
            if ap then Except.ok ()
            else
              match addrs.find? is_private_ip with
              | some a =>
                  Except.error ("Callback URL resolves to private IP " ++ a.literal ++
                    ". Set CONSUMA_ALLOW_PRIVATE_CALLBACKS=true for local testing.")
              | none => Except.ok ()
  else Except.error ("Invalid scheme: " ++ u.scheme ++ ". Only http/https allowed.")

/-! ## Bounded task queue (task_queue.py lines 14-49 and 119-135) -/

/-- The tuple placed on the queue by `enqueue` (task_queue.py line 46). -/
structure Task where
  request_id : String
  input_data : String
  iterations : Nat
  callback_url : String
deriving Repr, DecidableEq

/-- The queue-visible state of `AsyncTaskQueue`: the pending items of the
`asyncio.Queue`, its `maxsize`, and whether `_shutdown_event` is set. -/
structure AsyncTaskQueue where
  queue : List Task
  maxSize : Nat
  shutdownSet : Bool
deriving Repr, DecidableEq

/-- `asyncio.Queue.full()`: with `maxsize <= 0` the queue is never full,
otherwise full when the pending count has reached `maxsize`. -/
def queueFull (q : AsyncTaskQueue) : Bool :=
  0 < q.maxSize ∧ q.maxSize ≤ q.queue.length

/-- `AsyncTaskQueue.enqueue` (task_queue.py lines 43-49): `put_nowait` the
tuple and return `true`, or return `false` on `QueueFull`. Nothing else is
consulted. -/
def enqueue (q : AsyncTaskQueue) (t : Task) : AsyncTaskQueue × Bool :=
  if queueFull q then (q, false)
  else ({ q with queue := q.queue ++ [t] }, true)

/-- The effect of `AsyncTaskQueue.shutdown` (task_queue.py line 122) on the
state `enqueue` can observe: it sets `_shutdown_event`. (The subsequent drain
wait and worker cancellation act on the worker tasks, not on this state.) -/
def shutdown (q : AsyncTaskQueue) : AsyncTaskQueue :=
  { q with shutdownSet := true }

/-! ## Callback deliverer (callback.py lines 74-157) -/

/-- Outcome of the outbound `client.post` of one attempt: an HTTP response
with a status code, or one of the exception classes the source catches. -/
inductive PostOutcome where
  | response (code : Nat)
  | timeout
  | connError (msg : String)
  | unexpected (msg : String)
deriving Repr, DecidableEq

/-- The external world seen by one delivery attempt: the DNS resolution used
by the pre-POST re-validation, the POST outcome, and the `random.random()`
draw used for jitter. -/
structure AttemptEnv where
  resolve : ResolveResult
  post : PostOutcome
  rand : ℚ
deriving Repr, DecidableEq

/-- One row of the `callback_attempts` log as `insert_callback_attempt`
writes it (request id fixed, wall-clock duration omitted). -/
structure AttemptRow where
  attempt_number : Nat
  status_code : Option Nat
  error : Option String
deriving Repr, DecidableEq

/-- An observable event of `deliver_callback`: a store write
(`insert_callback_attempt` / `update_callback_status`) or a backoff sleep. -/
inductive Ev where
  | insertAttempt (row : AttemptRow)
  | updateStatus (callback_status : String) (attempts : Nat) (error : Option String)
  | sleep (seconds : ℚ)
deriving Repr, DecidableEq

/-- The 2xx test of callback.py line 121: `some code` when the POST returned
a response with `200 <= status_code < 300`, else `none`. -/
def attemptSuccess (e : AttemptEnv) : Option Nat :=
  match e.post with
  | PostOutcome.response c => if 200 ≤ c ∧ c < 300 then some c else none
  | _ => none

/-- The `(status_code, error_msg)` pair recorded for a failed attempt
(callback.py lines 131-139): a non-2xx response keeps its code, the caught
exceptions leave `status_code = None`. -/
def attemptFailRow : PostOutcome → Option Nat × String
  | PostOutcome.response c => (some c, "HTTP " ++ toString c)
  | PostOutcome.timeout => (none, "Timeout")
  | PostOutcome.connError m => (none, "Connection error: " ++ m)
  | PostOutcome.unexpected m => (none, "Unexpected error: " ++ m)

/-- The backoff base `min(base_delay * 2 ** (attempt - 1), max_delay)` with
`base_delay = 2.0`, `max_delay = 60.0` (callback.py line 149). -/
def baseDelay (attempt : Nat) : ℚ := min (2 * 2 ^ (attempt - 1)) 60

/-- The jitter `delay * 0.25 * (2 * random.random() - 1)` (line 150). -/
def jitterOf (delay r : ℚ) : ℚ := delay * (1/4) * (2 * r - 1)

/-- The backoff sleep events after a failed attempt: one sleep of
`delay + jitter` when `attempt < max_retries`, none otherwise (lines 148-151). -/
def sleepEvs (maxRetries attempt : Nat) (e : AttemptEnv) : List Ev :=
  if attempt < maxRetries then
    [Ev.sleep (baseDelay attempt + jitterOf (baseDelay attempt) e.rand)]
  else []

/-- The `for attempt in range(1, max_retries + 1)` loop of `deliver_callback`
(callback.py lines 88-157), emitting its store writes and sleeps in program
order. `rem` counts the loop iterations still available; `rem = 0` is the
post-loop exhaustion update (lines 153-156). Re-validation runs
`validate_callback_url` on the attempt's own DNS resolution. -/
def deliverGo (ap : Bool) (u : UrlParts) (env : Nat → AttemptEnv) (maxRetries : Nat) :
    Nat → Nat → List Ev
  | 0, _ =>
      [Ev.updateStatus "failed" maxRetries
        (some ("All " ++ toString maxRetries ++ " attempts failed"))]
  | rem + 1, attempt =>
      match validate_callback_url ap u (env attempt).resolve with
      | Except.error msg =>
          [Ev.insertAttempt ⟨attempt, none, some ("SSRF blocked: " ++ msg)⟩,
           Ev.updateStatus "failed" attempt (some ("SSRF blocked: " ++ msg))]
      | Except.ok _ =>
          match attemptSuccess (env attempt) with
          | some c =>
              [Ev.insertAttempt ⟨attempt, some c, none⟩,
               Ev.updateStatus "delivered" attempt none]
          | none =>
              Ev.insertAttempt
                ⟨attempt, (attemptFailRow (env attempt).post).1,
                 some (attemptFailRow (env attempt).post).2⟩ ::
              (sleepEvs maxRetries attempt (env attempt) ++
               deliverGo ap u env maxRetries rem (attempt + 1))

/-- `deliver_callback` for one request: run the attempt loop from attempt 1
with all `max_retries` iterations available. -/
def deliver_callback (ap : Bool) (u : UrlParts) (env : Nat → AttemptEnv)
    (maxRetries : Nat) : List Ev :=
  deliverGo ap u env maxRetries maxRetries 1

/-- The rows appended to the `callback_attempts` table, in insertion order. -/
def rowsOf (tr : List Ev) : List AttemptRow :=
  tr.filterMap fun e =>
    match e with
    | Ev.insertAttempt r => some r
    | _ => none

/-- The backoff sleep durations, in order. -/
def sleepsOf (tr : List Ev) : List ℚ :=
  tr.filterMap fun e =>
    match e with
    | Ev.sleep s => some s
    | _ => none

/-- The callback columns of the request record. -/
structure CbStatus where
  callback_status : Option String
  callback_attempts : Nat
  callback_error : Option String
deriving Repr, DecidableEq

/-- Effect of one event on the request record: `update_callback_status`
overwrites the three callback columns; other events leave them unchanged. -/
def applyEv (s : CbStatus) (e : Ev) : CbStatus :=
  match e with
  | Ev.updateStatus st a er => ⟨some st, a, er⟩
  | _ => s

/-- The callback columns after a trace, starting from the freshly inserted
record (`callback_status NULL`, `callback_attempts 0`). -/
def finalStatus (tr : List Ev) : CbStatus :=
  tr.foldl applyEv ⟨none, 0, none⟩

/-- A delivery attempt that fails for a non-SSRF reason: re-validation
passed and the POST did not yield a 2xx response. -/
def attemptFails (ap : Bool) (u : UrlParts) (e : AttemptEnv) : Prop :=
  validate_callback_url ap u e.resolve = Except.ok () ∧ attemptSuccess e = none

/-! ### Trace view lemmas -/

lemma foldl_applyEv_insert (i : CbStatus) (r : AttemptRow) (tr : List Ev) :
    List.foldl applyEv i (Ev.insertAttempt r :: tr) = List.foldl applyEv i tr := rfl

lemma foldl_applyEv_sleepEvs (i : CbStatus) (m a : Nat) (e : AttemptEnv) (tr : List Ev) :
    List.foldl applyEv i (sleepEvs m a e ++ tr) = List.foldl applyEv i tr := by
  unfold sleepEvs
  split <;> rfl

lemma finalStatus_fail_cons (r : AttemptRow) (m a : Nat) (e : AttemptEnv) (tr : List Ev) :
    finalStatus (Ev.insertAttempt r :: (sleepEvs m a e ++ tr)) = finalStatus tr := by
  unfold finalStatus
  rw [foldl_applyEv_insert, foldl_applyEv_sleepEvs]

lemma rowsOf_sleepEvs_append (m a : Nat) (e : AttemptEnv) (tr : List Ev) :
    rowsOf (sleepEvs m a e ++ tr) = rowsOf tr := by
  unfold sleepEvs
  split <;> simp [rowsOf]

lemma rowsOf_fail_cons (r : AttemptRow) (m a : Nat) (e : AttemptEnv) (tr : List Ev) :
    rowsOf (Ev.insertAttempt r :: (sleepEvs m a e ++ tr)) = r :: rowsOf tr := by
  unfold rowsOf at *
  rw [List.filterMap_cons]
  simpa [rowsOf] using congrArg (List.cons r) (rowsOf_sleepEvs_append m a e tr)

lemma sleepsOf_fail_cons (r : AttemptRow) (m a : Nat) (e : AttemptEnv) (tr : List Ev) :
    sleepsOf (Ev.insertAttempt r :: (sleepEvs m a e ++ tr)) =
      sleepsOf (sleepEvs m a e) ++ sleepsOf tr := by
  unfold sleepsOf
  rw [List.filterMap_cons, List.filterMap_append]

lemma sleepsOf_sleepEvs (m a : Nat) (e : AttemptEnv) :
    sleepsOf (sleepEvs m a e) =
      if a < m then [baseDelay a + jitterOf (baseDelay a) e.rand] else [] := by
  unfold sleepEvs
  split <;> simp [sleepsOf]

/-- Unfolding of one failed iteration of the loop. -/
lemma deliverGo_fail_step (ap : Bool) (u : UrlParts) (env : Nat → AttemptEnv)
    (maxRetries rem attempt : Nat)
    (h : attemptFails ap u (env attempt)) :
    deliverGo ap u env maxRetries (rem + 1) attempt =
      Ev.insertAttempt
        ⟨attempt, (attemptFailRow (env attempt).post).1,
         some (attemptFailRow (env attempt).post).2⟩ ::
      (sleepEvs maxRetries attempt (env attempt) ++
       deliverGo ap u env maxRetries rem (attempt + 1)) := by
  obtain ⟨hv, hs⟩ := h
  simp [deliverGo, hv, hs]

/-! ## Claim C5 -/

/-- C5: `validate_callback_url` raises `SSRFError` exactly when the scheme is
neither http nor https, the hostname is missing or empty, DNS resolution
failed, or private callbacks are disallowed and some resolved address is
private — and an address literal that cannot be parsed as an IP address is
always treated as private. -/
theorem c5_validate_callback_url_iff (ap : Bool) (u : UrlParts) (res : ResolveResult) :
    ((∃ e, validate_callback_url ap u res = Except.error e) ↔
      (¬ (u.scheme = "http" ∨ u.scheme = "https") ∨
       hostnameMissing u.hostname = true ∨
       (∃ m, res = ResolveResult.failure m) ∨
       (ap = false ∧ ∃ a ∈ res.addrs, is_private_ip a = true)))
    ∧ ∀ s : String, is_private_ip ⟨s, none⟩ = true := by
  refine ⟨?_, fun s => rfl⟩
  unfold validate_callback_url
  by_cases hs : u.scheme = "http" ∨ u.scheme = "https"
  · simp only [hs, if_true]
    cases hh : u.hostname with
    | none =>
        simp [hostnameMissing]
    | some h =>
        by_cases hhe : h = ""
        · subst hhe
          simp [hostnameMissing]
        · simp only [hhe, if_false, hostnameMissing]
          cases hr : res with
          | failure m =>
              simp [ResolveResult.addrs, hs, hhe]
          | success addrs =>
              by_cases hap : ap
              · subst hap
                simp [ResolveResult.addrs, hs, hhe]
              · simp only [Bool.not_eq_true] at hap
                subst hap
                simp only [if_false, Bool.false_eq_true]
                cases hf : addrs.find? is_private_ip with
                | none =>
                    simp only [ResolveResult.addrs]
                    constructor
                    · rintro ⟨e, he⟩; cases he
                    · rintro (h1 | h2 | ⟨m, hm⟩ | ⟨-, a, ha, hpriv⟩)
                      · exact absurd trivial h1
                      · simp [hhe] at h2
                      · cases hm
                      · exact absurd hpriv (by simpa using List.find?_eq_none.mp hf a ha)
                | some a =>
                    simp only [ResolveResult.addrs]
                    constructor
                    · intro _
                      refine Or.inr (Or.inr (Or.inr ⟨trivial, a, List.mem_of_find?_eq_some hf, ?_⟩))
                      exact List.find?_some hf
                    · intro _; exact ⟨_, rfl⟩
  · simp only [hs, if_false]
    constructor
    · intro _; exact Or.inl not_false
    · intro _; exact ⟨_, rfl⟩

/-! ## Claim C1 -/

/-- C1 counterexample: with the shutdown signal set and free capacity,
`enqueue` still returns `true` — the claim that every post-shutdown enqueue
returns `false` is refuted at this concrete state. -/
theorem c1_counterexample :
    (enqueue (shutdown { queue := [], maxSize := 1, shutdownSet := false })
      { request_id := "r1", input_data := "hi", iterations := 1,
        callback_url := "http://cb.example/hook" }).2 = true := by
  decide

/-- C1 (amended): `enqueue` returns `false` exactly when the queue is full;
it never consults the shutdown signal, so setting it leaves the returned
acceptance flag unchanged. -/
theorem c1_enqueue_full_iff (q : AsyncTaskQueue) (t : Task) :
    ((enqueue q t).2 = false ↔ queueFull q = true)
    ∧ (enqueue (shutdown q) t).2 = (enqueue q t).2 := by
  have hfull : queueFull (shutdown q) = queueFull q := rfl
  unfold enqueue
  rw [hfull]
  by_cases h : queueFull q = true
  · simp [h]
  · simp [h]

/-! ## Delivery-run characterizations -/

/-- When every remaining attempt fails for a non-SSRF reason, the run records
one failed row per attempt, exhausts, and sleeps between consecutive attempts
only. -/
lemma deliverGo_all_fail (ap : Bool) (u : UrlParts) (env : Nat → AttemptEnv)
    (maxRetries : Nat) :
    ∀ rem attempt, attempt + rem = maxRetries + 1 →
      (∀ k, attempt ≤ k → k ≤ maxRetries → attemptFails ap u (env k)) →
      (rowsOf (deliverGo ap u env maxRetries rem attempt)).length = rem ∧
      (∀ r ∈ rowsOf (deliverGo ap u env maxRetries rem attempt), r.error ≠ none) ∧
      finalStatus (deliverGo ap u env maxRetries rem attempt) =
        ⟨some "failed", maxRetries,
         some ("All " ++ toString maxRetries ++ " attempts failed")⟩ ∧
      (sleepsOf (deliverGo ap u env maxRetries rem attempt)).length = rem - 1 := by
  intro rem
  induction rem with
  | zero =>
      intro attempt _ _
      refine ⟨rfl, ?_, rfl, rfl⟩
      simp [deliverGo, rowsOf]
  | succ n ih =>
      intro attempt hsum hfail
      have hle : attempt ≤ maxRetries := by omega
      have hf : attemptFails ap u (env attempt) := hfail attempt le_rfl hle
      rw [deliverGo_fail_step ap u env maxRetries n attempt hf]
      obtain ⟨ih1, ih2, ih3, ih4⟩ :=
        ih (attempt + 1) (by omega) (fun k hk1 hk2 => hfail k (by omega) hk2)
      refine ⟨?_, ?_, ?_, ?_⟩
      · rw [rowsOf_fail_cons]
        simp [ih1]
      · rw [rowsOf_fail_cons]
        intro r hr
        rcases List.mem_cons.mp hr with h | h
        · subst h; simp
        · exact ih2 r h
      · rw [finalStatus_fail_cons]
        exact ih3
      · rw [sleepsOf_fail_cons, List.length_append, sleepsOf_sleepEvs, ih4]
        by_cases hlt : attempt < maxRetries
        · simp only [hlt, if_true, List.length_singleton]
          omega
        · simp only [hlt, if_false, List.length_nil]
          omega

/-- When attempts `attempt..k-1` fail and the re-validation of attempt `k`
raises `SSRFError msg`, the run ends at attempt `k` with the SSRF row
inserted and then the failed-status update, and records exactly one row per
attempt made. -/
lemma deliverGo_ssrf (ap : Bool) (u : UrlParts) (env : Nat → AttemptEnv)
    (maxRetries : Nat) (msg : String) :
    ∀ rem attempt k, attempt + rem = maxRetries + 1 → attempt ≤ k → k ≤ maxRetries →
      (∀ j, attempt ≤ j → j < k → attemptFails ap u (env j)) →
      validate_callback_url ap u (env k).resolve = Except.error msg →
      ∃ pre : List Ev,
        deliverGo ap u env maxRetries rem attempt =
          pre ++ [Ev.insertAttempt ⟨k, none, some ("SSRF blocked: " ++ msg)⟩,
                  Ev.updateStatus "failed" k (some ("SSRF blocked: " ++ msg))] ∧
        (rowsOf (deliverGo ap u env maxRetries rem attempt)).length = k - attempt + 1 ∧
        finalStatus (deliverGo ap u env maxRetries rem attempt) =
          ⟨some "failed", k, some ("SSRF blocked: " ++ msg)⟩ := by
  intro rem
  induction rem with
  | zero =>
      intro attempt k hsum hak hkm _ _
      omega
  | succ n ih =>
      intro attempt k hsum hak hkm hprev hssrf
      rcases Nat.eq_or_lt_of_le hak with heq | hlt
      · subst heq
        refine ⟨[], ?_, ?_, ?_⟩ <;> simp [deliverGo, hssrf, rowsOf, finalStatus, applyEv]
      · have hf : attemptFails ap u (env attempt) := hprev attempt le_rfl hlt
        rw [deliverGo_fail_step ap u env maxRetries n attempt hf]
        obtain ⟨pre, ihtr, ihlen, ihfin⟩ :=
          ih (attempt + 1) k (by omega) (by omega) hkm
            (fun j hj1 hj2 => hprev j (by omega) hj2) hssrf
        refine ⟨Ev.insertAttempt
            ⟨attempt, (attemptFailRow (env attempt).post).1,
             some (attemptFailRow (env attempt).post).2⟩ ::
            (sleepEvs maxRetries attempt (env attempt) ++ pre), ?_, ?_, ?_⟩
        · rw [ihtr]
          simp [List.append_assoc]
        · rw [rowsOf_fail_cons, List.length_cons, ihlen]
          omega
        · rw [finalStatus_fail_cons]
          exact ihfin

/-- C4: when all `callback_max_retries` attempts fail with a non-SSRF error,
exactly `callback_max_retries` failed rows are recorded (each with a non-null
error) and the callback status is set to failed with
`attempts = callback_max_retries` and error "All N attempts failed". -/
theorem c4_exhausted (ap : Bool) (u : UrlParts) (env : Nat → AttemptEnv)
    (maxRetries : Nat)
    (hfail : ∀ k, 1 ≤ k → k ≤ maxRetries → attemptFails ap u (env k)) :
    (rowsOf (deliver_callback ap u env maxRetries)).length = maxRetries ∧
    (∀ r ∈ rowsOf (deliver_callback ap u env maxRetries), r.error ≠ none) ∧
    finalStatus (deliver_callback ap u env maxRetries) =
      ⟨some "failed", maxRetries,
       some ("All " ++ toString maxRetries ++ " attempts failed")⟩ := by
  obtain ⟨h1, h2, h3, -⟩ :=
    deliverGo_all_fail ap u env maxRetries maxRetries 1 (by omega)
      (fun k hk1 hk2 => hfail k hk1 hk2)
  exact ⟨h1, h2, h3⟩

/-- A URL whose parse passes the scheme and hostname checks. -/
def cbUrl : UrlParts := ⟨"http", some "cb.example"⟩

/-- A per-attempt environment in which every attempt resolves publicly and
the POST returns HTTP 500, with `random.random() = 1/2`. -/
def allFailEnv : Nat → AttemptEnv := fun _ =>
  ⟨ResolveResult.success [⟨"93.184.216.34", some (IP.v4 (ipv4Of 93 184 216 34))⟩],
   PostOutcome.response 500, 1/2⟩

theorem c4_exhausted_witness :
    (∀ k, 1 ≤ k → k ≤ 2 → attemptFails true cbUrl (allFailEnv k)) ∧
    ((rowsOf (deliver_callback true cbUrl allFailEnv 2)).length = 2 ∧
     (∀ r ∈ rowsOf (deliver_callback true cbUrl allFailEnv 2), r.error ≠ none) ∧
     finalStatus (deliver_callback true cbUrl allFailEnv 2) =
       ⟨some "failed", 2, some ("All " ++ toString 2 ++ " attempts failed")⟩) :=
  ⟨fun _ _ _ => ⟨rfl, rfl⟩,
   c4_exhausted true cbUrl allFailEnv 2 (fun _ _ _ => ⟨rfl, rfl⟩)⟩

/-- C3: if attempts before `k` failed for non-SSRF reasons and the pre-POST
re-validation of attempt `k` raises `SSRFError`, the run records attempt `k`
with a null status code and an error beginning "SSRF blocked:", inserts that
row before the status mutation, sets the callback status to failed with
`attempts = k`, and makes no further attempt. -/
theorem c3_ssrf_terminal (ap : Bool) (u : UrlParts) (env : Nat → AttemptEnv)
    (maxRetries k : Nat) (msg : String)
    (hk1 : 1 ≤ k) (hk2 : k ≤ maxRetries)
    (hprev : ∀ j, 1 ≤ j → j < k → attemptFails ap u (env j))
    (hssrf : validate_callback_url ap u (env k).resolve = Except.error msg) :
    ∃ pre : List Ev,
      deliver_callback ap u env maxRetries =
        pre ++ [Ev.insertAttempt ⟨k, none, some ("SSRF blocked: " ++ msg)⟩,
                Ev.updateStatus "failed" k (some ("SSRF blocked: " ++ msg))] ∧
      (rowsOf (deliver_callback ap u env maxRetries)).length = k ∧
      finalStatus (deliver_callback ap u env maxRetries) =
        ⟨some "failed", k, some ("SSRF blocked: " ++ msg)⟩ := by
  obtain ⟨pre, h1, h2, h3⟩ :=
    deliverGo_ssrf ap u env maxRetries msg maxRetries 1 k (by omega) hk1 hk2 hprev hssrf
  refine ⟨pre, h1, ?_, h3⟩
  unfold deliver_callback
  omega

/-- A per-attempt environment in which DNS resolution yields a loopback
address literal on every attempt. -/
def privateEnv : Nat → AttemptEnv := fun _ =>
  ⟨ResolveResult.success [⟨"127.0.0.1", some (IP.v4 (ipv4Of 127 0 0 1))⟩],
   PostOutcome.response 200, 1/2⟩

theorem c3_ssrf_terminal_witness :
    (1 ≤ 1 ∧ 1 ≤ 3 ∧
     validate_callback_url false cbUrl (privateEnv 1).resolve =
       Except.error ("Callback URL resolves to private IP 127.0.0.1" ++
         ". Set CONSUMA_ALLOW_PRIVATE_CALLBACKS=true for local testing.")) ∧
    (∃ pre : List Ev,
      deliver_callback false cbUrl privateEnv 3 =
        pre ++ [Ev.insertAttempt
                  ⟨1, none, some ("SSRF blocked: " ++
                    ("Callback URL resolves to private IP 127.0.0.1" ++
                     ". Set CONSUMA_ALLOW_PRIVATE_CALLBACKS=true for local testing."))⟩,
                Ev.updateStatus "failed" 1
                  (some ("SSRF blocked: " ++
                    ("Callback URL resolves to private IP 127.0.0.1" ++
                     ". Set CONSUMA_ALLOW_PRIVATE_CALLBACKS=true for local testing.")))] ∧
      (rowsOf (deliver_callback false cbUrl privateEnv 3)).length = 1 ∧
      finalStatus (deliver_callback false cbUrl privateEnv 3) =
        ⟨some "failed", 1,
         some ("SSRF blocked: " ++
           ("Callback URL resolves to private IP 127.0.0.1" ++
            ". Set CONSUMA_ALLOW_PRIVATE_CALLBACKS=true for local testing."))⟩) :=
  ⟨⟨le_rfl, by omega, rfl⟩,
   c3_ssrf_terminal false cbUrl privateEnv 3 1 _ le_rfl (by omega)
     (fun j hj1 hj2 => absurd (lt_of_le_of_lt hj1 hj2) (lt_irrefl 1)) rfl⟩

/-! ## Claim C2 -/

lemma attemptSuccess_eq_some (e : AttemptEnv) (c : Nat) :
    attemptSuccess e = some c ↔
      e.post = PostOutcome.response c ∧ 200 ≤ c ∧ c < 300 := by
  cases hp : e.post with
  | response n =>
      simp only [attemptSuccess, hp]
      by_cases h : 200 ≤ n ∧ n < 300
      · rw [if_pos h]
        simp only [Option.some.injEq, PostOutcome.response.injEq]
        constructor
        · rintro rfl
          exact ⟨rfl, h⟩
        · rintro ⟨rfl, -⟩
          rfl
      · rw [if_neg h]
        simp only [PostOutcome.response.injEq]
        constructor
        · rintro ⟨⟩
        · rintro ⟨rfl, hc⟩
          exact absurd hc h
  | timeout => simp [attemptSuccess, hp]
  | connError m => simp [attemptSuccess, hp]
  | unexpected m => simp [attemptSuccess, hp]

lemma getLast?_cons_some {α : Type} (a x : α) (l : List α) (h : l.getLast? = some x) :
    (a :: l).getLast? = some x := by
  cases l with
  | nil => cases h
  | cons b t => rw [List.getLast?_cons_cons]; exact h

/-- When attempts `attempt..k-1` fail and attempt `k` passes re-validation
and receives a 2xx response, the run sets the delivered status with
`attempts = k`, records one row per attempt with numbers `attempt..k`, and
its last row is the 2xx success row. -/
lemma deliverGo_success (ap : Bool) (u : UrlParts) (env : Nat → AttemptEnv)
    (maxRetries k c : Nat) :
    ∀ rem attempt, attempt + rem = maxRetries + 1 → attempt ≤ k → k ≤ maxRetries →
      (∀ j, attempt ≤ j → j < k → attemptFails ap u (env j)) →
      validate_callback_url ap u (env k).resolve = Except.ok () →
      attemptSuccess (env k) = some c →
      finalStatus (deliverGo ap u env maxRetries rem attempt) =
        ⟨some "delivered", k, none⟩ ∧
      (rowsOf (deliverGo ap u env maxRetries rem attempt)).map AttemptRow.attempt_number =
        List.range' attempt (k - attempt + 1) ∧
      (rowsOf (deliverGo ap u env maxRetries rem attempt)).getLast? =
        some ⟨k, some c, none⟩ := by
  intro rem
  induction rem with
  | zero =>
      intro attempt hsum hak hkm _ _ _
      omega
  | succ n ih =>
      intro attempt hsum hak hkm hprev hv hs
      rcases Nat.eq_or_lt_of_le hak with heq | hlt
      · subst heq
        refine ⟨?_, ?_, ?_⟩ <;>
          simp [deliverGo, hv, hs, rowsOf, finalStatus, applyEv, List.range'_one]
      · have hf : attemptFails ap u (env attempt) := hprev attempt le_rfl hlt
        rw [deliverGo_fail_step ap u env maxRetries n attempt hf]
        obtain ⟨ih1, ih2, ih3⟩ :=
          ih (attempt + 1) (by omega) (by omega) hkm
            (fun j hj1 hj2 => hprev j (by omega) hj2) hv hs
        refine ⟨?_, ?_, ?_⟩
        · rw [finalStatus_fail_cons]
          exact ih1
        · rw [rowsOf_fail_cons, List.map_cons, ih2]
          have hn : k - attempt + 1 = (k - (attempt + 1) + 1) + 1 := by omega
          rw [hn]
          conv_rhs => rw [List.range'_succ]
        · rw [rowsOf_fail_cons]
          exact getLast?_cons_some _ _ _ ih3

/-- In any delivered run there is a first successful attempt: all attempts
before it failed non-SSRF, its re-validation passed, and its POST returned a
2xx response. -/
lemma deliverGo_delivered_inv (ap : Bool) (u : UrlParts) (env : Nat → AttemptEnv)
    (maxRetries : Nat) :
    ∀ rem attempt,
      (finalStatus (deliverGo ap u env maxRetries rem attempt)).callback_status =
        some "delivered" →
      ∃ k c, attempt ≤ k ∧ k ≤ attempt + rem - 1 ∧
        (∀ j, attempt ≤ j → j < k → attemptFails ap u (env j)) ∧
        validate_callback_url ap u (env k).resolve = Except.ok () ∧
        (env k).post = PostOutcome.response c ∧ 200 ≤ c ∧ c < 300 := by
  intro rem
  induction rem with
  | zero =>
      intro attempt h
      simp [deliverGo, finalStatus, applyEv] at h
  | succ n ih =>
      intro attempt h
      cases hv : validate_callback_url ap u (env attempt).resolve with
      | error msg =>
          rw [show deliverGo ap u env maxRetries (n + 1) attempt =
              [Ev.insertAttempt ⟨attempt, none, some ("SSRF blocked: " ++ msg)⟩,
               Ev.updateStatus "failed" attempt (some ("SSRF blocked: " ++ msg))] by
            simp [deliverGo, hv]] at h
          simp [finalStatus, applyEv] at h
      | ok unitv =>
          cases hs : attemptSuccess (env attempt) with
          | some c =>
              obtain ⟨hp, hc1, hc2⟩ := (attemptSuccess_eq_some _ _).mp hs
              exact ⟨attempt, c, le_rfl, by omega,
                fun j hj1 hj2 => absurd (lt_of_le_of_lt hj1 hj2) (lt_irrefl _),
                by cases unitv; exact hv, hp, hc1, hc2⟩
          | none =>
              have hf : attemptFails ap u (env attempt) := ⟨by cases unitv; exact hv, hs⟩
              rw [deliverGo_fail_step ap u env maxRetries n attempt hf,
                finalStatus_fail_cons] at h
              obtain ⟨k, c, hk1, hk2, hprev, hvk, hp, hc1, hc2⟩ := ih (attempt + 1) h
              refine ⟨k, c, by omega, by omega, ?_, hvk, hp, hc1, hc2⟩
              intro j hj1 hj2
              rcases Nat.eq_or_lt_of_le hj1 with heq | hlt
              · subst heq; exact hf
              · exact hprev j hlt hj2

/-- C2: the deliverer sets `callback_status = delivered` exactly when some
attempt `k` in `1..callback_max_retries` passed re-validation and received a
2xx response after all earlier attempts failed non-SSRF; in that case
`callback_attempts = k` with no recorded error, the rows are numbered `1..k`
(so no further attempt is made after `k`), and the last row is the success
row for attempt `k` with the 2xx code and a null error. -/
theorem c2_delivered (ap : Bool) (u : UrlParts) (env : Nat → AttemptEnv)
    (maxRetries : Nat) :
    ((finalStatus (deliver_callback ap u env maxRetries)).callback_status =
        some "delivered" ↔
      ∃ k c, 1 ≤ k ∧ k ≤ maxRetries ∧
        (∀ j, 1 ≤ j → j < k → attemptFails ap u (env j)) ∧
        validate_callback_url ap u (env k).resolve = Except.ok () ∧
        (env k).post = PostOutcome.response c ∧ 200 ≤ c ∧ c < 300)
    ∧ ((finalStatus (deliver_callback ap u env maxRetries)).callback_status =
        some "delivered" →
      ∃ k c, 1 ≤ k ∧ k ≤ maxRetries ∧
        finalStatus (deliver_callback ap u env maxRetries) =
          ⟨some "delivered", k, none⟩ ∧
        (rowsOf (deliver_callback ap u env maxRetries)).map AttemptRow.attempt_number =
          List.range' 1 k ∧
        (rowsOf (deliver_callback ap u env maxRetries)).getLast? =
          some ⟨k, some c, none⟩ ∧ 200 ≤ c ∧ c < 300) := by
  have fwd : (finalStatus (deliver_callback ap u env maxRetries)).callback_status =
      some "delivered" →
      ∃ k c, 1 ≤ k ∧ k ≤ maxRetries ∧
        (∀ j, 1 ≤ j → j < k → attemptFails ap u (env j)) ∧
        validate_callback_url ap u (env k).resolve = Except.ok () ∧
        (env k).post = PostOutcome.response c ∧ 200 ≤ c ∧ c < 300 := by
    intro h
    obtain ⟨k, c, hk1, hk2, hprev, hv, hp, hc1, hc2⟩ :=
      deliverGo_delivered_inv ap u env maxRetries maxRetries 1 h
    exact ⟨k, c, hk1, by omega, hprev, hv, hp, hc1, hc2⟩
  constructor
  · constructor
    · exact fwd
    · rintro ⟨k, c, hk1, hk2, hprev, hv, hp, hc1, hc2⟩
      have hs : attemptSuccess (env k) = some c :=
        (attemptSuccess_eq_some _ _).mpr ⟨hp, hc1, hc2⟩
      have := (deliverGo_success ap u env maxRetries k c maxRetries 1
        (by omega) hk1 hk2 hprev hv hs).1
      unfold deliver_callback
      rw [this]
  · intro h
    obtain ⟨k, c, hk1, hk2, hprev, hv, hp, hc1, hc2⟩ := fwd h
    have hs : attemptSuccess (env k) = some c :=
      (attemptSuccess_eq_some _ _).mpr ⟨hp, hc1, hc2⟩
    obtain ⟨h1, h2, h3⟩ := deliverGo_success ap u env maxRetries k c maxRetries 1
      (by omega) hk1 hk2 hprev hv hs
    refine ⟨k, c, hk1, hk2, h1, ?_, h3, hc1, hc2⟩
    rw [show k = k - 1 + 1 by omega]
    exact h2

/-- A per-attempt environment: attempt 1 gets HTTP 500, later attempts get
HTTP 204, all resolving publicly. -/
def retryEnv : Nat → AttemptEnv := fun k =>
  ⟨ResolveResult.success [⟨"93.184.216.34", some (IP.v4 (ipv4Of 93 184 216 34))⟩],
   if k = 1 then PostOutcome.response 500 else PostOutcome.response 204, 1/2⟩

theorem c2_delivered_witness :
    (finalStatus (deliver_callback true cbUrl retryEnv 3)).callback_status =
        some "delivered" ∧
    (∃ k c, 1 ≤ k ∧ k ≤ 3 ∧
      finalStatus (deliver_callback true cbUrl retryEnv 3) =
        ⟨some "delivered", k, none⟩ ∧
      (rowsOf (deliver_callback true cbUrl retryEnv 3)).map AttemptRow.attempt_number =
        List.range' 1 k ∧
      (rowsOf (deliver_callback true cbUrl retryEnv 3)).getLast? =
        some ⟨k, some c, none⟩ ∧ 200 ≤ c ∧ c < 300) :=
  ⟨by decide, (c2_delivered true cbUrl retryEnv 3).2 (by decide)⟩

/-! ## Claim C8 -/

lemma baseDelay_nonneg (a : Nat) : (0:ℚ) ≤ baseDelay a :=
  le_min (by positivity) (by norm_num)

lemma sleep_bounds (a : Nat) (r : ℚ) (h0 : 0 ≤ r) (h1 : r ≤ 1) :
    (3/4) * baseDelay a ≤ baseDelay a + jitterOf (baseDelay a) r ∧
    baseDelay a + jitterOf (baseDelay a) r ≤ (5/4) * baseDelay a := by
  have hd := baseDelay_nonneg a
  unfold jitterOf
  constructor <;> nlinarith

/-- Every sleep in a delivery run belongs to a failed non-terminal attempt
`k < max_retries` and lies within ±25% of that attempt's base delay. -/
lemma deliverGo_sleeps (ap : Bool) (u : UrlParts) (env : Nat → AttemptEnv)
    (maxRetries : Nat)
    (hrand : ∀ k, 0 ≤ (env k).rand ∧ (env k).rand ≤ 1) :
    ∀ rem attempt, 1 ≤ attempt →
      ∀ s ∈ sleepsOf (deliverGo ap u env maxRetries rem attempt),
        ∃ k, 1 ≤ k ∧ k < maxRetries ∧ attemptFails ap u (env k) ∧
          (3/4) * baseDelay k ≤ s ∧ s ≤ (5/4) * baseDelay k := by
  intro rem
  induction rem with
  | zero =>
      intro attempt _ s hs
      simp [deliverGo, sleepsOf] at hs
  | succ n ih =>
      intro attempt ha s hs
      cases hv : validate_callback_url ap u (env attempt).resolve with
      | error msg =>
          rw [show deliverGo ap u env maxRetries (n + 1) attempt =
              [Ev.insertAttempt ⟨attempt, none, some ("SSRF blocked: " ++ msg)⟩,
               Ev.updateStatus "failed" attempt (some ("SSRF blocked: " ++ msg))] by
            simp [deliverGo, hv]] at hs
          simp [sleepsOf] at hs
      | ok unitv =>
          cases hsc : attemptSuccess (env attempt) with
          | some c =>
              rw [show deliverGo ap u env maxRetries (n + 1) attempt =
                  [Ev.insertAttempt ⟨attempt, some c, none⟩,
                   Ev.updateStatus "delivered" attempt none] by
                cases unitv; simp [deliverGo, hv, hsc]] at hs
              simp [sleepsOf] at hs
          | none =>
              have hf : attemptFails ap u (env attempt) := ⟨by cases unitv; exact hv, hsc⟩
              rw [deliverGo_fail_step ap u env maxRetries n attempt hf,
                sleepsOf_fail_cons, sleepsOf_sleepEvs] at hs
              rcases List.mem_append.mp hs with hnew | hrest
              · by_cases hlt : attempt < maxRetries
                · rw [if_pos hlt] at hnew
                  rcases List.mem_singleton.mp hnew with rfl
                  obtain ⟨hb1, hb2⟩ :=
                    sleep_bounds attempt (env attempt).rand (hrand attempt).1 (hrand attempt).2
                  exact ⟨attempt, ha, hlt, hf, hb1, hb2⟩
                · rw [if_neg hlt] at hnew
                  cases hnew
              · exact ih (attempt + 1) (by omega) s hrest

/-- C8: every backoff sleep follows a failed attempt `k < callback_max_retries`
and its duration lies within ±25% of `min(2 * 2^(k-1), 60)` seconds; no sleep
follows attempt `callback_max_retries`, and in a run where every attempt
fails the deliverer sleeps exactly `callback_max_retries - 1` times — once
before each of attempts `2..callback_max_retries`. -/
theorem c8_backoff (ap : Bool) (u : UrlParts) (env : Nat → AttemptEnv)
    (maxRetries : Nat)
    (hrand : ∀ k, 0 ≤ (env k).rand ∧ (env k).rand ≤ 1) :
    (∀ s ∈ sleepsOf (deliver_callback ap u env maxRetries),
      ∃ k, 1 ≤ k ∧ k < maxRetries ∧ attemptFails ap u (env k) ∧
        (3/4) * baseDelay k ≤ s ∧ s ≤ (5/4) * baseDelay k) ∧
    ((∀ k, 1 ≤ k → k ≤ maxRetries → attemptFails ap u (env k)) →
      (sleepsOf (deliver_callback ap u env maxRetries)).length = maxRetries - 1) := by
  constructor
  · exact deliverGo_sleeps ap u env maxRetries hrand maxRetries 1 le_rfl
  · intro hall
    exact (deliverGo_all_fail ap u env maxRetries maxRetries 1 (by omega) hall).2.2.2

theorem c8_backoff_witness :
    (∀ k, 0 ≤ (allFailEnv k).rand ∧ (allFailEnv k).rand ≤ 1) ∧
    ((∀ s ∈ sleepsOf (deliver_callback true cbUrl allFailEnv 2),
      ∃ k, 1 ≤ k ∧ k < 2 ∧ attemptFails true cbUrl (allFailEnv k) ∧
        (3/4) * baseDelay k ≤ s ∧ s ≤ (5/4) * baseDelay k) ∧
    ((∀ k, 1 ≤ k → k ≤ 2 → attemptFails true cbUrl (allFailEnv k)) →
      (sleepsOf (deliver_callback true cbUrl allFailEnv 2)).length = 2 - 1)) :=
  ⟨fun _ => ⟨by norm_num [allFailEnv], by norm_num [allFailEnv]⟩,
   c8_backoff true cbUrl allFailEnv 2
     (fun _ => ⟨by norm_num [allFailEnv], by norm_num [allFailEnv]⟩)⟩

/-! ## Worker task processing (task_queue.py lines 51-117) -/

/-- The dict returned by `compute_work`: result digest, echoed iteration
count, wall-clock duration. -/
structure WorkResult where
  result : String
  iterations : Nat
  duration_ms : ℚ
deriving Repr, DecidableEq

/-- Outcomes of the effectful calls made while processing one task:
`Except.error msg` models the call raising an exception with message `msg`.
`compute` is the `asyncio.to_thread(compute_work, ...)` call; the two
`update` fields are the `update_request_result` calls of the success and
failure paths; the two `deliver` fields are the `deliver_callback` calls
(whose own store writes are not guarded inside `deliver_callback`). -/
structure TaskEnv where
  compute : Except String WorkResult
  updateCompleted : Except String Unit
  deliverSuccess : Except String Unit
  updateFailed : Except String Unit
  deliverError : Except String Unit
deriving Repr

/-- A callback payload dict; fields absent from a payload are `none`. -/
structure Payload where
  request_id : String
  status : String
  result : Option String
  iterations : Option Nat
  duration_ms : Option ℚ
  error : Option String
deriving Repr, DecidableEq

/-- The success payload built at task_queue.py lines 92-98 from the
`compute_work` result dict. -/
def successPayload (request_id : String) (wr : WorkResult) : Payload :=
  ⟨request_id, "completed", some wr.result, some wr.iterations, some wr.duration_ms, none⟩

/-- The error payload built at task_queue.py lines 109-113. -/
def errorPayload (request_id msg : String) : Payload :=
  ⟨request_id, "failed", none, none, none, some msg⟩

/-- A call a worker makes while processing a task, in program order. -/
inductive WAction where
  | updateRequestResult (id status result : String) (duration_ms : ℚ)
  | deliverCallback (id url : String) (p : Payload)
deriving Repr, DecidableEq

/-- `AsyncTaskQueue._handle_failure` (task_queue.py lines 101-117): update
the record to failed, then deliver the error callback; both calls sit inside
`try/except Exception` blocks, so whatever `env.updateFailed` and
`env.deliverError` raise, nothing escapes. -/
def handle_failure (env : TaskEnv) (request_id callback_url error_msg : String) :
    List WAction × Except String Unit :=
  ([WAction.updateRequestResult request_id "failed" "" 0,
    WAction.deliverCallback request_id callback_url (errorPayload request_id error_msg)],
   Except.ok ())

/-- `AsyncTaskQueue._process_task` (task_queue.py lines 70-99). Step 1:
compute; on exception, `_handle_failure` and return. Step 2: persist the
result; `except Exception` swallows `env.updateCompleted` failures. Step 3:
deliver the success callback — this call is not wrapped, so
`env.deliverSuccess` is the returned outcome and any error it carries
escapes `_process_task`. The first component lists the calls made. -/
def process_task (env : TaskEnv) (request_id : String) (callback_url : String) :
    List WAction × Except String Unit :=
  match env.compute with
  | Except.error _ => handle_failure env request_id callback_url "Work computation failed"
  | Except.ok wr =>
      ([WAction.updateRequestResult request_id "completed" wr.result wr.duration_ms,
        WAction.deliverCallback request_id callback_url (successPayload request_id wr)],
       env.deliverSuccess)

/-- Fate of a worker after one dequeued task. -/
inductive WorkerOutcome where
  | continueLoop
  | terminated (msg : String)
deriving Repr, DecidableEq

/-- The body of `AsyncTaskQueue._worker` for one dequeued task (task_queue.py
lines 61-66): `_process_task` runs inside `try/finally` with no `except`
clause, so an exception escaping it propagates past the `while` loop and the
worker coroutine terminates. -/
def worker_iteration (env : TaskEnv) (request_id : String) (callback_url : String) :
    WorkerOutcome :=
  match (process_task env request_id callback_url).2 with
  | Except.ok _ => WorkerOutcome.continueLoop
  | Except.error e => WorkerOutcome.terminated e

/-! ## Claim C6 -/

/-- C6 counterexample: a store exception escaping the success-callback
delivery is not caught at the worker-loop boundary — this concrete task
terminates the worker, refuting the claim that the worker never terminates
from a task-processing exception. -/
theorem c6_counterexample :
    worker_iteration
      { compute := Except.ok { result := "ab12", iterations := 10, duration_ms := 5 },
        updateCompleted := Except.ok (),
        deliverSuccess := Except.error "insert_callback_attempt: database is locked",
        updateFailed := Except.ok (),
        deliverError := Except.ok () }
      "r1" "http://cb.example/hook" =
      WorkerOutcome.terminated "insert_callback_attempt: database is locked" := rfl

/-- C6 (amended): exceptions in the compute step and throughout the failure
path are caught, but the success-callback delivery is unguarded — a worker
survives processing a task exactly when the compute step raised (the failure
path swallows everything) or the success delivery raised nothing. -/
theorem c6_worker_survives_iff (env : TaskEnv) (request_id callback_url : String) :
    worker_iteration env request_id callback_url = WorkerOutcome.continueLoop ↔
      ((∃ e, env.compute = Except.error e) ∨ env.deliverSuccess = Except.ok ()) := by
  cases hc : env.compute with
  | error e =>
      simp [worker_iteration, process_task, handle_failure, hc]
  | ok wr =>
      cases hd : env.deliverSuccess with
      | ok unitv =>
          cases unitv
          simp [worker_iteration, process_task, hc, hd]
      | error msg =>
          simp [worker_iteration, process_task, hc, hd]

/-! ## Claim C7 -/

/-- C7: when the compute step succeeds and the step-B store write raises, the
worker still performs step C — the calls made are exactly the completed-status
update followed by `deliver_callback` with the success payload carrying the
computed result. -/
theorem c7_store_failure_still_delivers (env : TaskEnv)
    (request_id callback_url : String) (wr : WorkResult) (e : String)
    (hc : env.compute = Except.ok wr)
    (hu : env.updateCompleted = Except.error e) :
    (process_task env request_id callback_url).1 =
      [WAction.updateRequestResult request_id "completed" wr.result wr.duration_ms,
       WAction.deliverCallback request_id callback_url (successPayload request_id wr)] := by
  simp [process_task, hc]

theorem c7_store_failure_still_delivers_witness :
    (({ compute := Except.ok { result := "ab12", iterations := 10, duration_ms := 5 },
        updateCompleted := Except.error "database is locked",
        deliverSuccess := Except.ok (),
        updateFailed := Except.ok (),
        deliverError := Except.ok () } : TaskEnv).compute =
          Except.ok { result := "ab12", iterations := 10, duration_ms := 5 } ∧
     ({ compute := Except.ok { result := "ab12", iterations := 10, duration_ms := 5 },
        updateCompleted := Except.error "database is locked",
        deliverSuccess := Except.ok (),
        updateFailed := Except.ok (),
        deliverError := Except.ok () } : TaskEnv).updateCompleted =
          Except.error "database is locked") ∧
    (process_task
      { compute := Except.ok { result := "ab12", iterations := 10, duration_ms := 5 },
        updateCompleted := Except.error "database is locked",
        deliverSuccess := Except.ok (),
        updateFailed := Except.ok (),
        deliverError := Except.ok () }
      "r1" "http://cb.example/hook").1 =
      [WAction.updateRequestResult "r1" "completed" "ab12" 5,
       WAction.deliverCallback "r1" "http://cb.example/hook"
         (successPayload "r1" { result := "ab12", iterations := 10, duration_ms := 5 })] :=
  ⟨⟨rfl, rfl⟩,
   c7_store_failure_still_delivers _ "r1" "http://cb.example/hook"
     { result := "ab12", iterations := 10, duration_ms := 5 } "database is locked" rfl rfl⟩

/-! ## Async acceptance handler (routes/async_route.py lines 15-55) -/

/-- A row of the `requests` table as `insert_request` (database.py lines
63-76) creates it: status defaults to pending. -/
structure RequestRecord where
  id : String
  mode : String
  input_data : String
  iterations : Nat
  status : String
  callback_url : Option String
deriving Repr, DecidableEq

/-- `insert_request`: append a pending record to the `requests` table. -/
def insert_request (store : List RequestRecord) (id mode input_data : String)
    (iterations : Nat) (callback_url : Option String) : List RequestRecord :=
  store ++ [⟨id, mode, input_data, iterations, "pending", callback_url⟩]

/-- The parts of the HTTP response the claims speak about. -/
structure HttpResponse where
  status_code : Nat
  detail : Option String
  retryAfter : Option String
  request_id : Option String
deriving Repr, DecidableEq

/-- The validated `AsyncRequest` body. -/
structure AsyncReq where
  input_data : String
  callback_url : String
  iterations : Option Nat
deriving Repr, DecidableEq

/-- Python `req.iterations or settings.default_iterations` (async_route.py
line 29): `None` and `0` both fall back to the default. -/
def pyOrDefault (x : Option Nat) (d : Nat) : Nat :=
  match x with
  | none => d
  | some n => if n = 0 then d else n

/-- `async_endpoint` (async_route.py lines 15-55): SSRF-validate the callback
URL (parse `u`, resolution `res`, `settings.allow_private_callbacks` `ap`),
then insert the pending record under the fresh id, then consult the queue
singleton and enqueue. Returns the store, the queue singleton and the
response. -/
def async_endpoint (ap : Bool) (u : UrlParts) (res : ResolveResult)
    (defaultIterations : Nat) (freshId : String)
    (store : List RequestRecord) (tq : Option AsyncTaskQueue) (req : AsyncReq) :
    List RequestRecord × Option AsyncTaskQueue × HttpResponse :=
  match validate_callback_url ap u res with
  | Except.error e =>
      (store, tq, ⟨400, some ("Invalid callback URL: " ++ e), none, none⟩)
  | Except.ok _ =>
      let iterations := pyOrDefault req.iterations defaultIterations
      let store2 := insert_request store freshId "async" req.input_data iterations
        (some req.callback_url)
      match tq with
      | none => (store2, none, ⟨503, some "Task queue not initialized", none, none⟩)
      | some q =>
          let eq2 := enqueue q ⟨freshId, req.input_data, iterations, req.callback_url⟩
          if eq2.2 then
            (store2, some eq2.1, ⟨202, none, none, some freshId⟩)
          else
            (store2, some eq2.1,
             ⟨503, some "Server overloaded — queue is full", some "5", none⟩)

/-! ## Claim C9 -/

/-- C9: when SSRF validation of the callback URL fails, the handler answers
400 with detail "Invalid callback URL: ..." and touches neither the store nor
the queue — no request record is inserted. -/
theorem c9_ssrf_rejection_leaves_store (ap : Bool) (u : UrlParts)
    (res : ResolveResult) (defaultIterations : Nat) (freshId : String)
    (store : List RequestRecord) (tq : Option AsyncTaskQueue) (req : AsyncReq)
    (e : String)
    (h : validate_callback_url ap u res = Except.error e) :
    async_endpoint ap u res defaultIterations freshId store tq req =
      (store, tq, ⟨400, some ("Invalid callback URL: " ++ e), none, none⟩) := by
  simp [async_endpoint, h]

theorem c9_ssrf_rejection_leaves_store_witness :
    validate_callback_url false ⟨"ftp", some "host"⟩ (ResolveResult.success []) =
      Except.error "Invalid scheme: ftp. Only http/https allowed." ∧
    async_endpoint false ⟨"ftp", some "host"⟩ (ResolveResult.success []) 100 "r1"
        [] none ⟨"hello", "ftp://host/cb", none⟩ =
      ([], none,
       ⟨400, some ("Invalid callback URL: " ++
         "Invalid scheme: ftp. Only http/https allowed."), none, none⟩) :=
  ⟨rfl,
   c9_ssrf_rejection_leaves_store false ⟨"ftp", some "host"⟩
     (ResolveResult.success []) 100 "r1" [] none ⟨"hello", "ftp://host/cb", none⟩
     "Invalid scheme: ftp. Only http/https allowed." rfl⟩

/-! ## Claim C10 -/

/-- C10: when validation passes but the queue is full, the pending record has
already been inserted and stays in the store, the queue is left unchanged (so
no worker can ever pick the task up), and the client gets 503 with
`Retry-After: 5` — acceptance is not atomic under back-pressure. -/
theorem c10_full_queue_orphans_record (ap : Bool) (u : UrlParts)
    (res : ResolveResult) (defaultIterations : Nat) (freshId : String)
    (store : List RequestRecord) (q : AsyncTaskQueue) (req : AsyncReq)
    (hok : validate_callback_url ap u res = Except.ok ())
    (hfull : queueFull q = true) :
    async_endpoint ap u res defaultIterations freshId store (some q) req =
      (store ++ [⟨freshId, "async", req.input_data,
                  pyOrDefault req.iterations defaultIterations, "pending",
                  some req.callback_url⟩],
       some q,
       ⟨503, some "Server overloaded — queue is full", some "5", none⟩) := by
  simp [async_endpoint, hok, insert_request, enqueue, hfull]

theorem c10_full_queue_orphans_record_witness :
    (validate_callback_url true cbUrl (ResolveResult.success []) = Except.ok () ∧
     queueFull ⟨[⟨"r0", "x", 1, "http://cb.example/hook"⟩], 1, false⟩ = true) ∧
    async_endpoint true cbUrl (ResolveResult.success []) 100 "r1" []
        (some ⟨[⟨"r0", "x", 1, "http://cb.example/hook"⟩], 1, false⟩)
        ⟨"hello", "http://cb.example/hook", none⟩ =
      ([⟨"r1", "async", "hello", 100, "pending", some "http://cb.example/hook"⟩],
       some ⟨[⟨"r0", "x", 1, "http://cb.example/hook"⟩], 1, false⟩,
       ⟨503, some "Server overloaded — queue is full", some "5", none⟩) :=
  ⟨⟨rfl, rfl⟩,
   c10_full_queue_orphans_record true cbUrl (ResolveResult.success []) 100 "r1" []
     ⟨[⟨"r0", "x", 1, "http://cb.example/hook"⟩], 1, false⟩
     ⟨"hello", "http://cb.example/hook", none⟩ rfl rfl⟩

end Consuma
